import Mathlib

/-!
Verification of the soilwise-ui field metrics pipeline.

Shallow embedding of the pure logic of
`src/services/yieldPredictionService.ts`, `src/services/remoteSensingService.ts`,
`src/services/ndviService.ts`, `src/lib/utils.ts`, the draw handler of
`src/components/Map.tsx` and the persistence helper `saveFieldData`.

JavaScript numbers are modelled as rationals (`ℚ`); the spec and the code
treat them as real-valued quantities.  `Math.random()` draws are explicit
parameters constrained to `[0, 1)` where a theorem needs it.  The one
irrational ingredient of the yield model, `Math.pow(ndvi, 1.5)`, and the
sinusoidal seasonal terms are passed in as parameters (every theorem below
holds for all values those parameters can take, so in particular for the
true real values).  Network responses are explicit oracle parameters.

Definitions come first, theorems after them.
-/

namespace Soilwise

/-- JavaScript `Math.round(x * 10) / 10`: round to one decimal place
(`Math.round` is floor of `x + 1/2`). -/
def round1 (x : ℚ) : ℚ := (⌊x * 10 + 1/2⌋ : ℚ) / 10

/-- JavaScript `parseFloat(x.toFixed(2))`: round to two decimal places
(the values rounded in this development are nonnegative, where
`toFixed` rounds half up). -/
def round2 (x : ℚ) : ℚ := (⌊x * 100 + 1/2⌋ : ℚ) / 100

/-- JavaScript `x || d` on an optional numeric field: `undefined`, `null`
and `0` are falsy and select the default. -/
def jsOr (x : Option ℚ) (d : ℚ) : ℚ :=
  match x with
  | none => d
  | some v => if v = 0 then d else v

/-!
Recommendation engine (`generateRecommendations`,
`yieldPredictionService.ts` lines 549 to 579).
-/

def recNitrogen : String :=
  "Apply nitrogen fertilizer to improve crop health and density"
def recMicronutrient : String :=
  "Consider foliar application of micronutrients to address potential deficiencies"
def recVariableRate : String :=
  "Use variable rate fertilizer application based on NDVI zones"
def recIrrigation : String :=
  "Increase irrigation frequency to maintain optimal soil moisture"
def recDrainage : String :=
  "Improve field drainage to prevent waterlogging and root diseases"
def recSoilTesting : String :=
  "Conduct soil testing to identify limiting factors for yield potential"
def recPrecisionAg : String :=
  "Consider precision agriculture techniques to maximize yield efficiency"
def recMaintain : String :=
  "Maintain current management practices which are yielding good results"

/-- The threshold rules of `generateRecommendations`: NDVI-category items
are pushed first, then the moisture-category items, then the
yield-gap-category items. -/
def thresholdRecommendations (ndvi soilMoisture yieldGap : ℚ) : List String :=
  (if ndvi < 2/5 then [recNitrogen, recMicronutrient]
   else if ndvi < 3/5 then [recVariableRate]
   else [])
  ++ (if soilMoisture < 25 then [recIrrigation]
      else if soilMoisture > 60 then [recDrainage]
      else [])
  ++ (if yieldGap > 2 then [recSoilTesting, recPrecisionAg]
      else [])

/-- `generateRecommendations(ndvi, soilMoisture, yieldGap)`: the threshold
rules, falling back to the single generic recommendation when nothing
fired. -/
def generateRecommendations (ndvi soilMoisture yieldGap : ℚ) : List String :=
  if (thresholdRecommendations ndvi soilMoisture yieldGap).isEmpty then [recMaintain]
  else thresholdRecommendations ndvi soilMoisture yieldGap

/-- The NDVI-category (fertilizer-related) messages of
`generateRecommendations`. -/
def ndviCategoryRecs : List String :=
  [recNitrogen, recMicronutrient, recVariableRate]

/-- The moisture-category messages of `generateRecommendations`
(`recDrainage` is the drainage-related one). -/
def moistureCategoryRecs : List String := [recIrrigation, recDrainage]

/-- The yield-gap-category messages of `generateRecommendations`
(`recSoilTesting` is the soil-testing-related one). -/
def yieldGapCategoryRecs : List String := [recSoilTesting, recPrecisionAg]

/-!
Synthetic yield model (`yieldPredictionService.ts` lines 482 to 603).
-/

/-- `detectCropTypeBasedOnNDVI` (lines 190 to 197). -/
def detectCropTypeBasedOnNDVI (ndvi : ℚ) : String :=
  if ndvi > 7/10 then "Corn"
  else if ndvi > 3/5 then "Rice"
  else if ndvi > 1/2 then "Wheat"
  else if ndvi > 2/5 then "Soybean"
  else if ndvi > 3/10 then "Barley"
  else "Cotton"

/-- `calculateYield(ndvi, soilMoisture)` (lines 508 to 523).  The
irrational NDVI factor `Math.pow(ndvi, 1.5)` is passed in as the
parameter `ndviPow15` (for `ndvi ∈ [0, 1]` it lies in `[0, 1]`; the
theorems below need only `0 ≤ ndviPow15`, which covers every value the
source can compute). -/
def calculateYield (ndviPow15 soilMoisture : ℚ) : ℚ :=
  let baseYield : ℚ := 7/2
  let ndviFactor := ndviPow15 * 5
  let moistureFactor := 1 - |(soilMoisture - 40) / 100|
  round1 (baseYield + ndviFactor * moistureFactor * 2)

/-- `calculatePotentialYield(ndvi, soilMoisture)` (lines 525 to 547), with
the same `ndviPow15` parameter forwarded to `calculateYield`. -/
def calculatePotentialYield (ndvi ndviPow15 soilMoisture : ℚ) : ℚ :=
  let currentYield := calculateYield ndviPow15 soilMoisture
  let improvement :=
    (if ndvi < 7/10 then (7/10 - ndvi) * 3 else 0)
    + (if soilMoisture < 35 ∨ soilMoisture > 50 then 4/5 else 0)
  round1 (max (currentYield + improvement) (currentYield * (6/5)))

/-- `generateHistoricalYieldData(currentYield)` (lines 581 to 603): five
yearly points ending at the current year, starting from the base
`currentYield * 0.85` plus a per-index trend increase and a random
variation in `[-0.2, 0.2)` (`rnd i` is the `Math.random()` draw of
iteration `i`). -/
def generateHistoricalYieldData (currentYield : ℚ) (currentYear : ℤ)
    (rnd : ℕ → ℚ) : List (ℤ × ℚ) :=
  (List.range 5).map (fun (i : ℕ) =>
    (currentYear - 4 + (i : ℤ),
     round1 (currentYield * (17/20) + ((i : ℚ) / 10) * currentYield
       + (rnd i * (2/5) - 1/5))))

/-- The `Field["yieldPrediction"]` shape assembled by the service
(timestamps and Earth-Engine extras omitted; they are opaque strings). -/
structure YieldPrediction where
  currentYield : ℚ
  potentialYield : ℚ
  yieldGap : ℚ
  recommendations : List String
  cropType : String
  yieldHistory : List (ℤ × ℚ)
  accuracy : ℚ
  dataSource : String

/-- `fallbackToSyntheticPrediction(field)` (lines 482 to 505).
`fieldNdvi` and `fieldSoilMoisture` are the optional `field.ndvi` and
`field.soilMoisture` (defaulted with JavaScript `||`), `priorCropType`
is `field.yieldPrediction?.cropType`. -/
def fallbackToSyntheticPrediction (fieldNdvi fieldSoilMoisture : Option ℚ)
    (ndviPow15 : ℚ) (priorCropType : Option String) (currentYear : ℤ)
    (rnd : ℕ → ℚ) : YieldPrediction :=
  let n := jsOr fieldNdvi (1/2)
  let s := jsOr fieldSoilMoisture 30
  let currentYield := calculateYield ndviPow15 s
  let potentialYield := calculatePotentialYield n ndviPow15 s
  let yieldGap := potentialYield - currentYield
  { currentYield := currentYield
    potentialYield := potentialYield
    yieldGap := yieldGap
    recommendations := generateRecommendations n s yieldGap
    cropType := priorCropType.getD (detectCropTypeBasedOnNDVI n)
    yieldHistory := generateHistoricalYieldData currentYield currentYear rnd
    accuracy := 41/50
    dataSource := "synthetic-model" }

/-!
Remote sensing estimator (`remoteSensingService.ts` lines 15 to 119) and
the initial simulated values of `handleDrawCreate` (`Map.tsx` lines 387
and 388).
-/

/-- Outcome of the `fetch` to the NDVI API, as observed by the
`try`/`catch` of `fetchRemoteSensingData`. -/
inductive NetOutcome where
  /-- 2xx response whose parsed JSON is `{ndvi, soil_moisture}`. -/
  | ok (ndvi soilMoisture : ℚ)
  /-- non-2xx status: the function throws an `Error`, and the catch
  (not a `TypeError`) returns `null`. -/
  | httpError
  /-- transport failure (`TypeError: Failed to fetch`): the catch
  returns simulated data. -/
  | networkFailure
  deriving DecidableEq

/-- `fetchRemoteSensingData(coordinates)`.  `r1`, `r2` are the
`Math.random()` draws of the simulated-data fallback.  The second
component records whether the `fetch` call was reached (`false` means the
degenerate-input guard short-circuited before any network request). -/
def fetchRemoteSensingData (coordinates : List (ℚ × ℚ)) (net : NetOutcome)
    (r1 r2 : ℚ) : Option (ℚ × ℚ) × Bool :=
  if coordinates.length = 0 then (none, false)
  else if coordinates.length < 3 then (none, false)
  else
    match net with
    | .ok n s => (some (n, s), true)
    | .httpError => (none, true)
    | .networkFailure => (some (r1 * (9/10 - 1/10) + 1/10, r2 * 40 + 10), true)

/-- `Map.tsx` line 387: `let ndvi = Math.random() * (0.9 - 0.1) + 0.1`. -/
def handleDrawCreateInitialNdvi (r : ℚ) : ℚ := r * (9/10 - 1/10) + 1/10

/-- `Map.tsx` line 388: `let soilMoisture = Math.random() * 40 + 10`. -/
def handleDrawCreateInitialSoilMoisture (r : ℚ) : ℚ := r * 40 + 10

/-!
Historical series generator (`lib/utils.ts` lines 61 to 96).

Dates are modelled as day numbers (`ℤ`, `today - i` for the point `i`
days back).  The environment carries the calendar and random inputs of
one generation call: `seasonalSin d` is
`Math.sin((month(d) + 1) / 12 * π * 2)` (irrational, abstracted),
`dayOfMonth d` is `getDate()` of day `d`, and `rndA i` and `rndB i` are
the `Math.random()` draws of loop iteration `i`.
-/

structure HistEnv where
  seasonalSin : ℤ → ℚ
  dayOfMonth : ℤ → ℤ
  rndA : ℕ → ℚ
  rndB : ℕ → ℚ

structure HistPoint where
  date : ℤ
  value : ℚ
  deriving DecidableEq

inductive MetricKind where
  | ndvi
  | soilMoisture
  deriving DecidableEq

/-- One loop iteration of `generateHistoricalData` at `i` days back,
given the points generated so far (`acc`, needed for the soil-moisture
decline term `result[result.length - 1].value * 0.05`). -/
def mkHistPoint (kind : MetricKind) (fieldNdvi fieldSm : Option ℚ)
    (today : ℤ) (env : HistEnv) (i : ℕ) (acc : List HistPoint) : HistPoint :=
  let date := today - (i : ℤ)
  match kind with
  | .ndvi =>
    let baseValue := jsOr fieldNdvi (1/2)
    let seasonalFactor := (3/20) * env.seasonalSin date
    let dailyVariation := (env.rndA i - 1/2) * (1/20)
    { date := date
      value := round2 (min (19/20)
        (max (1/10) (baseValue + seasonalFactor + dailyVariation))) }
  | .soilMoisture =>
    let baseMoisture := jsOr fieldSm 25
    let rainfall := if env.dayOfMonth date % 7 = 0 then 10 * env.rndA i else 0
    let decline := if 0 < i ∧ acc ≠ [] then
        ((acc.getLast?.map HistPoint.value).getD 0) * (1/20) else 0
    { date := date
      value := round2 (min 45
        (max 5 (baseMoisture + rainfall - decline + (env.rndB i - 1/2) * 3))) }

/-- The `for (let i = 30; i >= 0; i--) { ... result.push(point) }` loop:
fold over the descending index list, appending one point per index. -/
def histAppendFold (f : ℕ → List HistPoint → HistPoint) :
    List ℕ → List HistPoint → List HistPoint
  | [], acc => acc
  | i :: l, acc => histAppendFold f l (acc ++ [f i acc])

/-- `generateHistoricalData(field, dataType)`. -/
def generateHistoricalData (kind : MetricKind) (fieldNdvi fieldSm : Option ℚ)
    (today : ℤ) (env : HistEnv) : List HistPoint :=
  histAppendFold (mkHistPoint kind fieldNdvi fieldSm today env)
    (List.range 31).reverse []

/-- A fixed environment realizable by the source: `seasonalSin` is 0
(`sin(π)`, month of May), day-of-month 1, every random draw 1/2. -/
def constEnv : HistEnv :=
  { seasonalSin := fun _ => 0
    dayOfMonth := fun _ => 1
    rndA := fun _ => 1/2
    rndB := fun _ => 1/2 }

/-!
Physics-based NDVI model (`ndviService.ts` lines 11 to 125).

The polygon enters `calculateRealNDVI` only through its center latitude
and its area in hectares (via `turf.center` and `turf.area`), so these
are the parameters of the embedding; `month` is `getMonth()` (0 to 11)
of the current date, `r1` and `r2` the `Math.random()` draws of the two
reflectance computations.
-/

/-- `calculateLatitudeFactor` (lines 58 to 71). -/
def calculateLatitudeFactor (absoluteLatitude : ℚ) : ℚ :=
  if absoluteLatitude < 15 then 4/5
  else if absoluteLatitude < 30 then 7/10
  else if absoluteLatitude < 45 then 3/5
  else if absoluteLatitude < 60 then 2/5
  else 1/5

/-- `calculateSeasonalFactor` (lines 73 to 95): months 3 to 8 (April to
September) are the growing season of the northern hemisphere. -/
def calculateSeasonalFactor (latitude : ℚ) (month : ℤ) : ℚ :=
  if 0 ≤ latitude then
    (if 3 ≤ month ∧ month ≤ 8 then 1 else 3/5)
  else
    (if 3 ≤ month ∧ month ≤ 8 then 3/5 else 1)

/-- `calculateNIRReflectance` (lines 104 to 113). -/
def calculateNIRReflectance (latitudeFactor seasonalFactor areaHectares
    r : ℚ) : ℚ :=
  let baseNIR := 2/5 + latitudeFactor * (3/10)
  let seasonalNIR := baseNIR * seasonalFactor
  let randomFactor := (r * (1/10)) * min 1 (areaHectares / 10)
  min (17/20) (max (3/10) (seasonalNIR + randomFactor))

/-- `calculateRedReflectance` (lines 115 to 125). -/
def calculateRedReflectance (latitudeFactor seasonalFactor areaHectares
    r : ℚ) : ℚ :=
  let baseRed := 3/20 - latitudeFactor * (1/10)
  let seasonalRed := baseRed * (1 / seasonalFactor)
  let randomFactor := (r * (1/20)) * min 1 (areaHectares / 10)
  min (3/10) (max (1/20) (seasonalRed + randomFactor))

structure NdviTriple where
  min : ℚ
  max : ℚ
  mean : ℚ

/-- `calculateRealNDVI(polygon)` (lines 11 to 54). -/
def calculateRealNDVI (latitude areaHectares : ℚ) (month : ℤ)
    (r1 r2 : ℚ) : NdviTriple :=
  let latitudeFactor := calculateLatitudeFactor |latitude|
  let seasonalFactor := calculateSeasonalFactor latitude month
  let nirReflectance :=
    calculateNIRReflectance latitudeFactor seasonalFactor areaHectares r1
  let redReflectance :=
    calculateRedReflectance latitudeFactor seasonalFactor areaHectares r2
  let ndviMean := (nirReflectance - redReflectance)
    / (nirReflectance + redReflectance)
  let ndviStdDev := min (3/20) (3/100 + (areaHectares / 100) * (1/20))
  let ndviMin := max 0 (ndviMean - ndviStdDev * (3/2))
  let ndviMax := min 1 (ndviMean + ndviStdDev * (3/2))
  { min := round2 ndviMin, max := round2 ndviMax, mean := round2 ndviMean }

/-!
Persistence helper (`saveFieldData`, supabase client module,
`src/unnamed/part_009`).

The browser `localStorage` is modelled at the JSON level: the
`local_fields` entry as an optional parsed list of field records, the
`selected_field` entry as an optional parsed record.  The remote database
interaction is an oracle (`DbOutcome`); `checkSupabaseConnection` catches
its own exceptions and returns a boolean, so its three observable
outcomes are connected with successful upsert, connected with failed
upsert, and not connected.  The event list records the order of storage
and database operations; `saveFieldData` is total (its body is one big
`try`/`catch` returning `false`), so the embedding returns, never
throws.
-/

structure FieldRec where
  id : String
  area : ℚ
  ndvi : Option ℚ
  soilMoisture : Option ℚ
  lastUpdated : String
  deriving DecidableEq

/-- JavaScript `Array.prototype.findIndex`: index of the first element
satisfying the predicate, `none` when there is none. -/
def findIndex (p : α → Bool) : List α → Option ℕ
  | [] => none
  | a :: l => if p a then some 0 else (findIndex p l).map (· + 1)

/-- The local-cache upsert step of `saveFieldData` (part_009 lines 92 to
97): replace the first entry carrying the id of the saved field in
place, otherwise push the field at the end. -/
def localUpsert (fields : List FieldRec) (f : FieldRec) : List FieldRec :=
  match findIndex (fun g => g.id == f.id) fields with
  | some i => fields.set i f
  | none => fields ++ [f]

structure LocalStore where
  localFields : Option (List FieldRec)
  selectedField : Option FieldRec

inductive DbOutcome where
  | connectedOk
  | connectedUpsertError
  | notConnected
  deriving DecidableEq

inductive StorageEv where
  | setLocalFields
  | setSelectedField
  | dbCheck
  | dbUpsert
  deriving DecidableEq

/-- The spread `{...field, lastUpdated: new Date().toISOString()}`. -/
def withTimestamp (f : FieldRec) (now : String) : FieldRec :=
  { f with lastUpdated := now }

/-- `saveFieldData(field)` (part_009 lines 77 to 134): refresh the
timestamp, upsert into the `local_fields` cache, write `selected_field`,
then try the remote upsert; returns `false` exactly when the remote
upsert errored, with the local writes already performed. -/
def saveFieldData (f : FieldRec) (now : String) (store : LocalStore)
    (db : DbOutcome) : Bool × LocalStore × List StorageEv :=
  let updatedField := withTimestamp f now
  let fields := store.localFields.getD []
  let store' : LocalStore :=
    { localFields := some (localUpsert fields updatedField)
      selectedField := some updatedField }
  match db with
  | .connectedOk =>
    (true, store', [.setLocalFields, .setSelectedField, .dbCheck, .dbUpsert])
  | .connectedUpsertError =>
    (false, store', [.setLocalFields, .setSelectedField, .dbCheck, .dbUpsert])
  | .notConnected =>
    (true, store', [.setLocalFields, .setSelectedField, .dbCheck])

/-- Demo record for the C10 witness. -/
def demoA : FieldRec :=
  { id := "a", area := 1, ndvi := none, soilMoisture := none,
    lastUpdated := "t0" }

/-- Demo record for the C10 witness. -/
def demoB : FieldRec :=
  { id := "b", area := 2, ndvi := some (1/2), soilMoisture := some 30,
    lastUpdated := "t0" }

/-- Demo record for the C10 witness: same id as `demoB`, new payload. -/
def demoBNew : FieldRec :=
  { id := "b", area := 3, ndvi := some (3/5), soilMoisture := some 35,
    lastUpdated := "t1" }

/-- Demo record for the C10 witness: fresh id. -/
def demoC : FieldRec :=
  { id := "c", area := 4, ndvi := none, soilMoisture := none,
    lastUpdated := "t1" }

/-!
Theorems.  Rounding lemmas first, then one theorem per claim (with its
witness or counterexample), with the helper lemmas each proof needs.
-/

theorem round1_mono {a b : ℚ} (h : a ≤ b) : round1 a ≤ round1 b := by
  unfold round1
  have hz : (⌊a * 10 + 1/2⌋ : ℤ) ≤ ⌊b * 10 + 1/2⌋ := by
    apply Int.floor_le_floor; linarith
  have hq : ((⌊a * 10 + 1/2⌋ : ℤ) : ℚ) ≤ ((⌊b * 10 + 1/2⌋ : ℤ) : ℚ) := by
    exact_mod_cast hz
  linarith

theorem round1_gt (x : ℚ) : x - 1/20 < round1 x := by
  unfold round1
  have h1 : (x * 10 + 1/2) - 1 < (⌊x * 10 + 1/2⌋ : ℚ) := Int.sub_one_lt_floor _
  linarith

theorem round1_le (x : ℚ) : round1 x ≤ x + 1/20 := by
  unfold round1
  have h1 : (⌊x * 10 + 1/2⌋ : ℚ) ≤ x * 10 + 1/2 := Int.floor_le _
  linarith

theorem round2_mono {a b : ℚ} (h : a ≤ b) : round2 a ≤ round2 b := by
  unfold round2
  have hz : (⌊a * 100 + 1/2⌋ : ℤ) ≤ ⌊b * 100 + 1/2⌋ := by
    apply Int.floor_le_floor; linarith
  have hq : ((⌊a * 100 + 1/2⌋ : ℤ) : ℚ) ≤ ((⌊b * 100 + 1/2⌋ : ℤ) : ℚ) := by
    exact_mod_cast hz
  linarith

/-- C1.  The recommendation engine never returns an empty list, and when
no threshold rule fires (`ndvi ≥ 0.6`, `25 ≤ soilMoisture ≤ 60`,
`yieldGap ≤ 2`) it returns exactly the single generic
"maintain current practices" recommendation. -/
theorem generateRecommendations_nonempty_and_generic
    (ndvi soilMoisture yieldGap : ℚ)
    (hn : 3/5 ≤ ndvi) (hs1 : 25 ≤ soilMoisture) (hs2 : soilMoisture ≤ 60)
    (hg : yieldGap ≤ 2) :
    (∀ n s g : ℚ, generateRecommendations n s g ≠ []) ∧
    generateRecommendations ndvi soilMoisture yieldGap = [recMaintain] := by
  constructor
  · intro n s g
    unfold generateRecommendations
    split
    · simp
    · rename_i h
      simpa using h
  · have h1 : ¬ ndvi < 2/5 := by linarith
    have h2 : ¬ ndvi < 3/5 := by linarith
    have h3 : ¬ soilMoisture < 25 := by linarith
    have h4 : ¬ soilMoisture > 60 := by linarith
    have h5 : ¬ yieldGap > 2 := by linarith
    simp [generateRecommendations, thresholdRecommendations, h1, h2, h3, h4, h5]

/-- Witness for C1 at Scenario C: ndvi 0.75, soilMoisture 45, yieldGap 0.5. -/
theorem generateRecommendations_nonempty_and_generic_witness :
    (∀ n s g : ℚ, generateRecommendations n s g ≠ []) ∧
    generateRecommendations (3/4) 45 (1/2) = [recMaintain] :=
  generateRecommendations_nonempty_and_generic (3/4) 45 (1/2)
    (by norm_num) (by norm_num) (by norm_num) (by norm_num)

theorem calculateYield_ge_base (p s : ℚ) (hp : 0 ≤ p) (hs0 : 0 ≤ s)
    (hs1 : s ≤ 100) : 7/2 ≤ calculateYield p s := by
  unfold calculateYield
  have habs : |(s - 40) / 100| ≤ 3/5 := by
    rw [abs_le]; constructor <;> [linarith; linarith]
  have hmf : 2/5 ≤ 1 - |(s - 40) / 100| := by linarith
  have hnn : 0 ≤ p * 5 * (1 - |(s - 40) / 100|) * 2 := by nlinarith
  have h72 : round1 (7/2) = 7/2 := by norm_num [round1]
  calc (7/2 : ℚ) = round1 (7/2) := h72.symm
    _ ≤ _ := round1_mono (by nlinarith)

/-- Core ordering of the synthetic yield model: the (rounded) potential
yield is at least the (rounded) current yield whenever the NDVI power
factor is nonnegative and soil moisture is a percentage in `[0, 100]`. -/
theorem calculateYield_le_calculatePotentialYield (n p s : ℚ) (hp : 0 ≤ p)
    (hs0 : 0 ≤ s) (hs1 : s ≤ 100) :
    calculateYield p s ≤ calculatePotentialYield n p s := by
  have hc : 7/2 ≤ calculateYield p s := calculateYield_ge_base p s hp hs0 hs1
  unfold calculatePotentialYield
  set c := calculateYield p s with hcdef
  have h1 : c * (6/5) ≤ max (c + ((if n < 7/10 then (7/10 - n) * 3 else 0)
      + (if s < 35 ∨ s > 50 then (4/5 : ℚ) else 0))) (c * (6/5)) :=
    le_max_right _ _
  have h2 : round1 (c * (6/5)) ≤ round1 (max (c + ((if n < 7/10 then (7/10 - n) * 3 else 0)
      + (if s < 35 ∨ s > 50 then (4/5 : ℚ) else 0))) (c * (6/5))) :=
    round1_mono h1
  have h3 : c * (6/5) - 1/20 < round1 (c * (6/5)) := round1_gt _
  linarith

/-- C2.  Every synthetic-tier yield prediction satisfies
`currentYield ≤ potentialYield` with `yieldGap` exactly their difference,
and for every NDVI power factor `p ≥ 0` (covering all `ndvi ∈ [0, 1]`)
and soil moisture `s ∈ [0, 100]`, the rounded
`calculatePotentialYield` is at least the rounded `calculateYield`. -/
theorem syntheticPrediction_yield_ordering
    (fieldNdvi fieldSoilMoisture : Option ℚ) (ndviPow15 : ℚ)
    (priorCropType : Option String) (currentYear : ℤ) (rnd : ℕ → ℚ)
    (n p s : ℚ)
    (hp0 : 0 ≤ ndviPow15)
    (hm0 : 0 ≤ jsOr fieldSoilMoisture 30)
    (hm1 : jsOr fieldSoilMoisture 30 ≤ 100)
    (hp : 0 ≤ p) (hs0 : 0 ≤ s) (hs1 : s ≤ 100) :
    (fallbackToSyntheticPrediction fieldNdvi fieldSoilMoisture ndviPow15
        priorCropType currentYear rnd).currentYield
      ≤ (fallbackToSyntheticPrediction fieldNdvi fieldSoilMoisture ndviPow15
        priorCropType currentYear rnd).potentialYield ∧
    (fallbackToSyntheticPrediction fieldNdvi fieldSoilMoisture ndviPow15
        priorCropType currentYear rnd).yieldGap
      = (fallbackToSyntheticPrediction fieldNdvi fieldSoilMoisture ndviPow15
        priorCropType currentYear rnd).potentialYield
        - (fallbackToSyntheticPrediction fieldNdvi fieldSoilMoisture ndviPow15
        priorCropType currentYear rnd).currentYield ∧
    calculateYield p s ≤ calculatePotentialYield n p s := by
  refine ⟨?_, ?_, calculateYield_le_calculatePotentialYield n p s hp hs0 hs1⟩
  · simpa [fallbackToSyntheticPrediction] using
      calculateYield_le_calculatePotentialYield (jsOr fieldNdvi (1/2))
        ndviPow15 (jsOr fieldSoilMoisture 30) hp0 hm0 hm1
  · simp [fallbackToSyntheticPrediction]

/-- Witness for C2 at a concrete field (ndvi 0.5, soil moisture 45). -/
theorem syntheticPrediction_yield_ordering_witness :
    (fallbackToSyntheticPrediction (some (1/2)) (some 45) (1/2) none 2025
        (fun _ => 1/2)).currentYield
      ≤ (fallbackToSyntheticPrediction (some (1/2)) (some 45) (1/2) none 2025
        (fun _ => 1/2)).potentialYield ∧
    (fallbackToSyntheticPrediction (some (1/2)) (some 45) (1/2) none 2025
        (fun _ => 1/2)).yieldGap
      = (fallbackToSyntheticPrediction (some (1/2)) (some 45) (1/2) none 2025
        (fun _ => 1/2)).potentialYield
        - (fallbackToSyntheticPrediction (some (1/2)) (some 45) (1/2) none 2025
        (fun _ => 1/2)).currentYield ∧
    calculateYield (1/4) 50 ≤ calculatePotentialYield (1/2) (1/4) 50 :=
  syntheticPrediction_yield_ordering (some (1/2)) (some 45) (1/2) none 2025
    (fun _ => 1/2) (1/2) (1/4) 50
    (by norm_num) (by norm_num [jsOr]) (by norm_num [jsOr])
    (by norm_num) (by norm_num) (by norm_num)

/-- C4.  A coordinate list that is empty or has fewer than three
vertices makes `fetchRemoteSensingData` return `null` without the fetch
call ever being reached — a defined no-op, not a thrown error. -/
theorem fetchRemoteSensingData_short_ring_null
    (coordinates : List (ℚ × ℚ)) (net : NetOutcome) (r1 r2 : ℚ)
    (h : coordinates.length < 3) :
    fetchRemoteSensingData coordinates net r1 r2 = (none, false) := by
  unfold fetchRemoteSensingData
  rcases Nat.eq_zero_or_pos coordinates.length with h0 | h0
  · simp [h0]
  · have hne : ¬ coordinates.length = 0 := by omega
    simp [hne, h]

/-- Witness for C4 at the empty coordinate list (Scenario B). -/
theorem fetchRemoteSensingData_short_ring_null_witness :
    fetchRemoteSensingData [] NetOutcome.httpError 0 0 = (none, false) :=
  fetchRemoteSensingData_short_ring_null [] NetOutcome.httpError 0 0
    (by simp)

/-- C3, counterexample.  The remote tier of `fetchRemoteSensingData`
returns the API values unvalidated, so the output NDVI of the estimator
is *not* in `[0.1, 0.9]` for every tier: a 2xx response carrying
`ndvi = 0.95` is passed straight through. -/
theorem fetchRemoteSensingData_remote_tier_unbounded :
    (fetchRemoteSensingData [(0, 0), (0, 1), (1, 1), (0, 0)]
        (NetOutcome.ok (19/20) 30) 0 0).1 = some (19/20, 30) ∧
    ¬ ((19/20 : ℚ) ≤ 9/10) := by
  constructor
  · simp [fetchRemoteSensingData]
  · norm_num

/-- C3, amended.  The simulated-data fallback of
`fetchRemoteSensingData` and the initial simulated values of
`handleDrawCreate` keep NDVI in `[0.1, 0.9]` and soil moisture in
`[10, 50]` for every value of the random source; the remote tier passes
API values through unvalidated. -/
theorem fetchRemoteSensingData_simulated_bounds
    (coordinates : List (ℚ × ℚ)) (r1 r2 s1 s2 : ℚ)
    (hlen : 3 ≤ coordinates.length)
    (h1 : 0 ≤ r1) (h2 : r1 < 1) (h3 : 0 ≤ r2) (h4 : r2 < 1)
    (h5 : 0 ≤ s1) (h6 : s1 < 1) (h7 : 0 ≤ s2) (h8 : s2 < 1) :
    fetchRemoteSensingData coordinates NetOutcome.networkFailure r1 r2
      = (some (r1 * (9/10 - 1/10) + 1/10, r2 * 40 + 10), true) ∧
    (1/10 ≤ r1 * (9/10 - 1/10) + 1/10 ∧ r1 * (9/10 - 1/10) + 1/10 ≤ 9/10) ∧
    (10 ≤ r2 * 40 + 10 ∧ r2 * 40 + 10 ≤ 50) ∧
    (1/10 ≤ handleDrawCreateInitialNdvi s1 ∧
      handleDrawCreateInitialNdvi s1 ≤ 9/10) ∧
    (10 ≤ handleDrawCreateInitialSoilMoisture s2 ∧
      handleDrawCreateInitialSoilMoisture s2 ≤ 50) := by
  constructor
  · unfold fetchRemoteSensingData
    have hne : ¬ coordinates.length = 0 := by omega
    have hge : ¬ coordinates.length < 3 := by omega
    simp [hne, hge]
  · simp only [handleDrawCreateInitialNdvi, handleDrawCreateInitialSoilMoisture]
    exact ⟨⟨by linarith, by linarith⟩, ⟨by linarith, by linarith⟩,
      ⟨by linarith, by linarith⟩, by linarith, by linarith⟩

/-- Witness for the amended C3 at the unit square and random draws 1/2. -/
theorem fetchRemoteSensingData_simulated_bounds_witness :
    fetchRemoteSensingData [(0, 0), (0, 1), (1, 1), (0, 0)]
        NetOutcome.networkFailure (1/2) (1/2)
      = (some ((1/2) * (9/10 - 1/10) + 1/10, (1/2) * 40 + 10), true) ∧
    (1/10 ≤ (1/2 : ℚ) * (9/10 - 1/10) + 1/10 ∧
      (1/2 : ℚ) * (9/10 - 1/10) + 1/10 ≤ 9/10) ∧
    (10 ≤ (1/2 : ℚ) * 40 + 10 ∧ (1/2 : ℚ) * 40 + 10 ≤ 50) ∧
    (1/10 ≤ handleDrawCreateInitialNdvi (1/2) ∧
      handleDrawCreateInitialNdvi (1/2) ≤ 9/10) ∧
    (10 ≤ handleDrawCreateInitialSoilMoisture (1/2) ∧
      handleDrawCreateInitialSoilMoisture (1/2) ≤ 50) :=
  fetchRemoteSensingData_simulated_bounds
    [(0, 0), (0, 1), (1, 1), (0, 0)] (1/2) (1/2) (1/2) (1/2)
    (by simp) (by norm_num) (by norm_num) (by norm_num) (by norm_num)
    (by norm_num) (by norm_num) (by norm_num) (by norm_num)

theorem histAppendFold_length (f : ℕ → List HistPoint → HistPoint) :
    ∀ (l : List ℕ) (acc : List HistPoint),
    (histAppendFold f l acc).length = acc.length + l.length := by
  intro l
  induction l with
  | nil => intro acc; simp [histAppendFold]
  | cons i l ih =>
    intro acc
    rw [histAppendFold, ih]
    simp
    omega

theorem histAppendFold_map_date (f : ℕ → List HistPoint → HistPoint)
    (g : ℕ → ℤ) (hf : ∀ i acc, (f i acc).date = g i) :
    ∀ (l : List ℕ) (acc : List HistPoint),
    (histAppendFold f l acc).map HistPoint.date
      = acc.map HistPoint.date ++ l.map g := by
  intro l
  induction l with
  | nil => intro acc; simp [histAppendFold]
  | cons i l ih =>
    intro acc
    rw [histAppendFold, ih]
    simp [hf]

theorem histAppendFold_forall (f : ℕ → List HistPoint → HistPoint)
    (P : HistPoint → Prop) (hf : ∀ i acc, P (f i acc)) :
    ∀ (l : List ℕ) (acc : List HistPoint),
    ∀ p ∈ histAppendFold f l acc, p ∈ acc ∨ P p := by
  intro l
  induction l with
  | nil => intro acc p hp; exact Or.inl hp
  | cons i l ih =>
    intro acc p hp
    rw [histAppendFold] at hp
    rcases ih (acc ++ [f i acc]) p hp with h | h
    · rcases List.mem_append.mp h with h' | h'
      · exact Or.inl h'
      · rcases List.mem_singleton.mp h' with rfl
        exact Or.inr (hf i acc)
    · exact Or.inr h

theorem histAppendFold_head (f : ℕ → List HistPoint → HistPoint) :
    ∀ (l : List ℕ) (a : HistPoint) (acc : List HistPoint),
    (histAppendFold f l (a :: acc)).head? = some a := by
  intro l
  induction l with
  | nil => intro a acc; simp [histAppendFold]
  | cons i l ih =>
    intro a acc
    rw [histAppendFold]
    exact ih a (acc ++ [f i (a :: acc)])

theorem round2_clamp_mem (lo hi x : ℚ) (h : lo ≤ hi)
    (hlo : round2 lo = lo) (hhi : round2 hi = hi) :
    lo ≤ round2 (min hi (max lo x)) ∧ round2 (min hi (max lo x)) ≤ hi := by
  constructor
  · calc lo = round2 lo := hlo.symm
      _ ≤ _ := round2_mono (le_min h (le_max_left lo x))
  · calc round2 (min hi (max lo x)) ≤ round2 hi :=
        round2_mono (min_le_left _ _)
      _ = hi := hhi

/-- Every point of a generated series satisfies any property enjoyed by
all points the loop can push. -/
theorem generateHistoricalData_forall (kind : MetricKind)
    (fieldNdvi fieldSm : Option ℚ) (today : ℤ) (env : HistEnv)
    (P : HistPoint → Prop)
    (hf : ∀ i acc, P (mkHistPoint kind fieldNdvi fieldSm today env i acc)) :
    ∀ p ∈ generateHistoricalData kind fieldNdvi fieldSm today env, P p := by
  intro p hp
  rcases histAppendFold_forall _ P hf _ _ p hp with h | h
  · simp at h
  · exact h

/-- C5.  For every field and every value of the random and calendar
sources, the NDVI historical series has exactly 31 points whose dates
are consecutive days in chronological order ending today, with every
value in `[0.1, 0.95]`; the soil-moisture series of the same generator
keeps every value in `[5, 45]` (`p` and `q` range over the points of the
two series). -/
theorem generateHistoricalData_spec (fieldNdvi fieldSm : Option ℚ)
    (today : ℤ) (env : HistEnv) (p q : HistPoint)
    (hp : p ∈ generateHistoricalData .ndvi fieldNdvi fieldSm today env)
    (hq : q ∈ generateHistoricalData .soilMoisture fieldNdvi fieldSm today env) :
    (generateHistoricalData .ndvi fieldNdvi fieldSm today env).length = 31 ∧
    (generateHistoricalData .ndvi fieldNdvi fieldSm today env).map
        HistPoint.date
      = (List.range 31).map (fun (k : ℕ) => today - 30 + (k : ℤ)) ∧
    (1/10 ≤ p.value ∧ p.value ≤ 19/20) ∧
    (5 ≤ q.value ∧ q.value ≤ 45) := by
  refine ⟨?_, ?_, ?_, ?_⟩
  · rw [generateHistoricalData, histAppendFold_length]
    simp
  · rw [generateHistoricalData,
      histAppendFold_map_date _ (fun i => today - (i : ℤ))
        (by intro i acc; cases fieldNdvi <;> simp [mkHistPoint])]
    rw [show (List.range 31).reverse
        = [30, 29, 28, 27, 26, 25, 24, 23, 22, 21, 20, 19, 18, 17, 16, 15,
           14, 13, 12, 11, 10, 9, 8, 7, 6, 5, 4, 3, 2, 1, 0] from by decide,
      show List.range 31
        = [0, 1, 2, 3, 4, 5, 6, 7, 8, 9, 10, 11, 12, 13, 14, 15, 16, 17,
           18, 19, 20, 21, 22, 23, 24, 25, 26, 27, 28, 29, 30] from by decide]
    simp only [List.map_cons, List.map_nil, List.nil_append,
      List.cons.injEq, and_true]
    push_cast
    omega
  · exact generateHistoricalData_forall .ndvi fieldNdvi fieldSm today env
      (fun p => 1/10 ≤ p.value ∧ p.value ≤ 19/20)
      (by
        intro i acc
        simp only [mkHistPoint]
        exact round2_clamp_mem (1/10) (19/20) _ (by norm_num)
          (by norm_num [round2]) (by norm_num [round2]))
      p hp
  · exact generateHistoricalData_forall .soilMoisture fieldNdvi fieldSm today env
      (fun p => 5 ≤ p.value ∧ p.value ≤ 45)
      (by
        intro i acc
        simp only [mkHistPoint]
        exact round2_clamp_mem 5 45 _ (by norm_num)
          (by norm_num [round2]) (by norm_num [round2]))
      q hq

theorem head_mem_of_eq {α : Type} {l : List α} {a : α}
    (h : l.head? = some a) : a ∈ l := by
  cases l with
  | nil => simp at h
  | cons b t =>
    simp only [List.head?_cons, Option.some.injEq] at h
    rw [← h]
    exact List.mem_cons_self b t

/-- The first point pushed by `generateHistoricalData` is the one for
`i = 30` (30 days back), computed with an empty accumulator. -/
theorem generateHistoricalData_head (kind : MetricKind)
    (fieldNdvi fieldSm : Option ℚ) (today : ℤ) (env : HistEnv) :
    (generateHistoricalData kind fieldNdvi fieldSm today env).head?
      = some (mkHistPoint kind fieldNdvi fieldSm today env 30 []) := by
  rw [generateHistoricalData,
    show (List.range 31).reverse
      = 30 :: [29, 28, 27, 26, 25, 24, 23, 22, 21, 20, 19, 18, 17, 16, 15,
          14, 13, 12, 11, 10, 9, 8, 7, 6, 5, 4, 3, 2, 1, 0] from by decide,
    histAppendFold]
  simp only [List.nil_append]
  exact histAppendFold_head _ _ _ []

/-- Witness for C5 at a field with NDVI 0.6 and soil moisture 30,
evaluated on the first point of each series. -/
theorem generateHistoricalData_spec_witness :
    (generateHistoricalData .ndvi (some (3/5)) (some 30) 0 constEnv).length
      = 31 ∧
    (generateHistoricalData .ndvi (some (3/5)) (some 30) 0 constEnv).map
        HistPoint.date
      = (List.range 31).map (fun (k : ℕ) => (0 : ℤ) - 30 + (k : ℤ)) ∧
    (1/10 ≤ (mkHistPoint .ndvi (some (3/5)) (some 30) 0 constEnv 30 []).value ∧
      (mkHistPoint .ndvi (some (3/5)) (some 30) 0 constEnv 30 []).value
        ≤ 19/20) ∧
    (5 ≤ (mkHistPoint .soilMoisture (some (3/5)) (some 30) 0 constEnv
        30 []).value ∧
      (mkHistPoint .soilMoisture (some (3/5)) (some 30) 0 constEnv
        30 []).value ≤ 45) :=
  generateHistoricalData_spec (some (3/5)) (some 30) 0 constEnv _ _
    (head_mem_of_eq
      (generateHistoricalData_head .ndvi (some (3/5)) (some 30) 0 constEnv))
    (head_mem_of_eq
      (generateHistoricalData_head .soilMoisture (some (3/5)) (some 30) 0
        constEnv))

/-- C6, counterexample.  For a field with NDVI 0.6, zero seasonal term
(month of May) and central random draws, the first (oldest) point of the
daily NDVI series is 0.6 itself — not `currentValue * 0.85 = 0.51`.  The
0.85 starting factor exists only in the multi-year yield series. -/
theorem dailySeries_first_point_not_085 :
    ((generateHistoricalData .ndvi (some (3/5)) none 0 constEnv).head?.map
        HistPoint.value) = some (3/5) ∧
    (3/5 : ℚ) ≠ (17/20) * (3/5) := by
  constructor
  · rw [generateHistoricalData_head]
    simp only [mkHistPoint, constEnv, jsOr]
    norm_num [round2]
  · norm_num

/-- C6, amended.  The first point of the daily series is the clamped
and rounded sum of the current value, the seasonal term, and the random
daily variation (no 0.85 factor); the multi-year yield series starts from
base `currentYield * 0.85`, and its first point is strictly below the
current yield whenever `currentYield ≥ 5/3` (every yield the synthetic
model produces is ≥ 3.5). -/
theorem historicalSeries_start (fieldNdvi fieldSm : Option ℚ) (today : ℤ)
    (env : HistEnv) (c : ℚ) (yr : ℤ) (rnd : ℕ → ℚ)
    (hc : 5/3 ≤ c) (h0 : 0 ≤ rnd 0) (h1 : rnd 0 < 1) :
    (generateHistoricalData .ndvi fieldNdvi fieldSm today env).head?
      = some ⟨today - 30,
          round2 (min (19/20) (max (1/10)
            (jsOr fieldNdvi (1/2) + (3/20) * env.seasonalSin (today - 30)
              + (env.rndA 30 - 1/2) * (1/20))))⟩ ∧
    ((generateHistoricalYieldData c yr rnd).map Prod.snd).head?
      = some (round1 (c * (17/20) + ((0 : ℚ)/10) * c
          + (rnd 0 * (2/5) - 1/5))) ∧
    round1 (c * (17/20) + ((0 : ℚ)/10) * c + (rnd 0 * (2/5) - 1/5)) < c := by
  refine ⟨?_, ?_, ?_⟩
  · rw [generateHistoricalData_head]
    simp only [mkHistPoint]
    norm_num
  · rw [generateHistoricalYieldData,
      show List.range 5 = [0, 1, 2, 3, 4] from by decide]
    simp
  · have hle := round1_le (c * (17/20) + ((0 : ℚ)/10) * c
      + (rnd 0 * (2/5) - 1/5))
    have hr : rnd 0 * (2/5) < 2/5 := by nlinarith
    linarith

/-- Witness for the amended C6 at NDVI 0.6, current yield 2,
central random draws. -/
theorem historicalSeries_start_witness :
    (generateHistoricalData .ndvi (some (3/5)) none 0 constEnv).head?
      = some ⟨(0 : ℤ) - 30,
          round2 (min (19/20) (max (1/10)
            (jsOr (some (3/5)) (1/2) + (3/20) * constEnv.seasonalSin (0 - 30)
              + (constEnv.rndA 30 - 1/2) * (1/20))))⟩ ∧
    ((generateHistoricalYieldData 2 2025 (fun _ => 1/2)).map Prod.snd).head?
      = some (round1 (2 * (17/20) + ((0 : ℚ)/10) * 2
          + ((1/2) * (2/5) - 1/5))) ∧
    round1 (2 * (17/20) + ((0 : ℚ)/10) * 2 + ((1/2) * (2/5) - 1/5)) < 2 :=
  historicalSeries_start (some (3/5)) none 0 constEnv 2 2025 (fun _ => 1/2)
    (by norm_num) (by norm_num) (by norm_num)

theorem clamp_mem (lo hi x : ℚ) (h : lo ≤ hi) :
    lo ≤ min hi (max lo x) ∧ min hi (max lo x) ≤ hi :=
  ⟨le_min h (le_max_left lo x), min_le_left _ _⟩

/-- C7.  For every polygon (any center latitude, any nonnegative
area), month, and random draws, `calculateRealNDVI` returns a triple with
`0 ≤ min ≤ mean ≤ max ≤ 1`, the rounding to two decimals included. -/
theorem calculateRealNDVI_ordered (latitude areaHectares : ℚ) (month : ℤ)
    (r1 r2 : ℚ) (harea : 0 ≤ areaHectares) :
    0 ≤ (calculateRealNDVI latitude areaHectares month r1 r2).min ∧
    (calculateRealNDVI latitude areaHectares month r1 r2).min
      ≤ (calculateRealNDVI latitude areaHectares month r1 r2).mean ∧
    (calculateRealNDVI latitude areaHectares month r1 r2).mean
      ≤ (calculateRealNDVI latitude areaHectares month r1 r2).max ∧
    (calculateRealNDVI latitude areaHectares month r1 r2).max ≤ 1 := by
  unfold calculateRealNDVI
  set lf := calculateLatitudeFactor |latitude| with hlf
  set sf := calculateSeasonalFactor latitude month with hsf
  set nir := calculateNIRReflectance lf sf areaHectares r1 with hnir
  set red := calculateRedReflectance lf sf areaHectares r2 with hred
  obtain ⟨hnir0, hnir1⟩ :=
    clamp_mem (3/10) (17/20)
      ((2/5 + lf * (3/10)) * sf + (r1 * (1/10)) * min 1 (areaHectares / 10))
      (by norm_num)
  obtain ⟨hred0, hred1⟩ :=
    clamp_mem (1/20) (3/10)
      ((3/20 - lf * (1/10)) * (1 / sf) + (r2 * (1/20)) * min 1 (areaHectares / 10))
      (by norm_num)
  rw [calculateNIRReflectance] at hnir
  rw [calculateRedReflectance] at hred
  rw [← hnir] at hnir0 hnir1
  rw [← hred] at hred0 hred1
  have hden : 0 < nir + red := by linarith
  have hmean0 : 0 ≤ (nir - red) / (nir + red) :=
    div_nonneg (by linarith) (by linarith)
  have hmean1 : (nir - red) / (nir + red) ≤ 1 := by
    rw [div_le_one hden]; linarith
  set m := (nir - red) / (nir + red) with hm
  have hsd : 0 ≤ min (3/20 : ℚ) (3/100 + (areaHectares / 100) * (1/20)) := by
    apply le_min (by norm_num)
    nlinarith
  set sd := min (3/20 : ℚ) (3/100 + (areaHectares / 100) * (1/20)) with hsd'
  have hminle : max 0 (m - sd * (3/2)) ≤ m :=
    max_le hmean0 (by nlinarith)
  have hmin0 : (0 : ℚ) ≤ max 0 (m - sd * (3/2)) := le_max_left _ _
  have hmaxge : m ≤ min 1 (m + sd * (3/2)) :=
    le_min hmean1 (by nlinarith)
  have hmax1 : min 1 (m + sd * (3/2)) ≤ 1 := min_le_left _ _
  have hr0 : round2 0 = 0 := by norm_num [round2]
  have hr1 : round2 1 = 1 := by norm_num [round2]
  refine ⟨?_, ?_, ?_, ?_⟩
  · calc (0 : ℚ) = round2 0 := hr0.symm
      _ ≤ _ := round2_mono hmin0
  · exact round2_mono hminle
  · exact round2_mono hmaxge
  · calc round2 (min 1 (m + sd * (3/2))) ≤ round2 1 := round2_mono hmax1
      _ = 1 := hr1

/-- Witness for C7 at the equator, 10 ha, June, central random draws. -/
theorem calculateRealNDVI_ordered_witness :
    0 ≤ (calculateRealNDVI 0 10 5 (1/2) (1/2)).min ∧
    (calculateRealNDVI 0 10 5 (1/2) (1/2)).min
      ≤ (calculateRealNDVI 0 10 5 (1/2) (1/2)).mean ∧
    (calculateRealNDVI 0 10 5 (1/2) (1/2)).mean
      ≤ (calculateRealNDVI 0 10 5 (1/2) (1/2)).max ∧
    (calculateRealNDVI 0 10 5 (1/2) (1/2)).max ≤ 1 :=
  calculateRealNDVI_ordered 0 10 5 (1/2) (1/2) (by norm_num)

/-- C8.  For ndvi 0.3, soil moisture 70, yield gap 3 the engine emits
the two fertilizer (NDVI-category) items, then the drainage item, then
the two yield-gap items; the output contains a fertilizer-related, a
drainage-related and a soil-testing-related message, and filtering by
category in the fixed order NDVI, moisture, yield-gap reproduces the
output list, i.e. every fertilizer item precedes every drainage item,
which precedes every yield-gap item. -/
theorem scenarioD_recommendations :
    generateRecommendations (3/10) 70 3
      = [recNitrogen, recMicronutrient, recDrainage, recSoilTesting,
         recPrecisionAg] ∧
    recNitrogen ∈ ndviCategoryRecs ∧
    recDrainage ∈ moistureCategoryRecs ∧
    recSoilTesting ∈ yieldGapCategoryRecs ∧
    ((generateRecommendations (3/10) 70 3).filter
        (fun s => ndviCategoryRecs.contains s))
      ++ ((generateRecommendations (3/10) 70 3).filter
        (fun s => moistureCategoryRecs.contains s))
      ++ ((generateRecommendations (3/10) 70 3).filter
        (fun s => yieldGapCategoryRecs.contains s))
      = generateRecommendations (3/10) 70 3 := by
  have hout : generateRecommendations (3/10) 70 3
      = [recNitrogen, recMicronutrient, recDrainage, recSoilTesting,
         recPrecisionAg] := by
    have h1 : ((3 : ℚ)/10) < 2/5 := by norm_num
    have h2 : ¬ ((70 : ℚ) < 25) := by norm_num
    have h3 : (70 : ℚ) > 60 := by norm_num
    have h4 : (3 : ℚ) > 2 := by norm_num
    simp [generateRecommendations, thresholdRecommendations, h1, h2, h3, h4]
  refine ⟨hout, by decide, by decide, by decide, ?_⟩
  rw [hout]
  decide

theorem findIndex_lt_length (p : α → Bool) :
    ∀ (l : List α) (i : ℕ), findIndex p l = some i → i < l.length := by
  intro l
  induction l with
  | nil => intro i h; simp [findIndex] at h
  | cons a l ih =>
    intro i h
    rw [findIndex] at h
    by_cases hp : p a
    · rw [if_pos hp] at h
      have h0 : (0 : ℕ) = i := by injection h
      simp only [List.length_cons]
      omega
    · rw [if_neg hp] at h
      obtain ⟨j, hj, hji⟩ := Option.map_eq_some'.mp h
      have := ih j hj
      simp only [List.length_cons]
      omega

theorem set_getElem?_ne (a : α) :
    ∀ (l : List α) (i j : ℕ), i ≠ j → (l.set i a)[j]? = l[j]? := by
  intro l
  induction l with
  | nil => intro i j _; simp
  | cons b l ih =>
    intro i j hij
    cases i with
    | zero =>
      cases j with
      | zero => exact absurd rfl hij
      | succ j => simp
    | succ i =>
      cases j with
      | zero => simp
      | succ j => simpa using ih i j (by omega)

theorem mem_set_self (a : α) :
    ∀ (l : List α) (i : ℕ), i < l.length → a ∈ l.set i a := by
  intro l
  induction l with
  | nil => intro i h; simp at h
  | cons b l ih =>
    intro i h
    cases i with
    | zero => simp
    | succ i =>
      simp only [List.set_cons_succ, List.mem_cons]
      exact Or.inr (ih i (by simpa using h))

theorem mem_localUpsert_self (fields : List FieldRec) (f : FieldRec) :
    f ∈ localUpsert fields f := by
  unfold localUpsert
  cases h : findIndex (fun g => g.id == f.id) fields with
  | none => simp
  | some i => exact mem_set_self f fields i (findIndex_lt_length _ fields i h)

/-- C9.  `saveFieldData` always returns (its body is one
`try`/`catch`); before any database interaction it writes the saved field
with refreshed timestamp into both local-cache slots, and it returns
`false` exactly when the remote upsert fails — the local cache holding
the saved field either way. -/
theorem saveFieldData_local_fallback (f : FieldRec) (now : String)
    (store : LocalStore) (db : DbOutcome) :
    (saveFieldData f now store db).2.1.selectedField
      = some (withTimestamp f now) ∧
    withTimestamp f now ∈ (saveFieldData f now store db).2.1.localFields.getD [] ∧
    (saveFieldData f now store db).1
      = (if db = DbOutcome.connectedUpsertError then false else true) ∧
    (saveFieldData f now store db).2.2
      = [StorageEv.setLocalFields, StorageEv.setSelectedField,
          StorageEv.dbCheck]
        ++ (if db = DbOutcome.notConnected then [] else [StorageEv.dbUpsert]) := by
  cases db <;>
    simp [saveFieldData, mem_localUpsert_self]

/-- C10.  The local-cache upsert touches only the entry whose id
matches: when an entry with the saved id exists (first match at index
`i`), the result has the same length, carries the saved field at `i`,
and every other position is unchanged; when no entry matches, the result
is exactly the old list with the field appended. -/
theorem localUpsert_frame (fields : List FieldRec) (f : FieldRec) :
    (∀ i, findIndex (fun g => g.id == f.id) fields = some i →
      (localUpsert fields f).length = fields.length ∧
      (localUpsert fields f)[i]? = some f ∧
      ∀ j, j ≠ i → (localUpsert fields f)[j]? = fields[j]?) ∧
    (findIndex (fun g => g.id == f.id) fields = none →
      localUpsert fields f = fields ++ [f]) := by
  constructor
  · intro i h
    have hlt := findIndex_lt_length _ fields i h
    unfold localUpsert
    rw [h]
    refine ⟨List.length_set .., ?_, ?_⟩
    · exact List.getElem?_set_eq_of_lt f hlt
    · intro j hj
      exact set_getElem?_ne f fields i j (fun he => hj he.symm)
  · intro h
    unfold localUpsert
    rw [h]

/-- Witness for C10: replacing the entry of id "b" in a two-entry cache
keeps the length and the other entry; a fresh id "c" is appended. -/
theorem localUpsert_frame_witness :
    (localUpsert [demoA, demoB] demoBNew).length = [demoA, demoB].length ∧
    (localUpsert [demoA, demoB] demoBNew)[1]? = some demoBNew ∧
    (localUpsert [demoA, demoB] demoBNew)[0]? = [demoA, demoB][0]? ∧
    localUpsert [demoA, demoB] demoC = [demoA, demoB] ++ [demoC] := by
  have h := localUpsert_frame [demoA, demoB] demoBNew
  have hs := h.1 1 (by decide)
  exact ⟨hs.1, hs.2.1, hs.2.2 0 (by decide),
    (localUpsert_frame [demoA, demoB] demoC).2 (by decide)⟩

end Soilwise
